import Mathlib

/-!
Verification of the SCREW repository: a shallow embedding of the screw /
co-screw algebra (`gscrew/screw.py`), of the point-free variant
(`src/screw.py`) and of the forward-kinematics example
(`examples/arm_kinematics.py`), together with theorems settling the
specification's claims about them.

The external geometric-algebra substrate is modelled concretely as the
Euclidean geometric algebra of dimension `n` over `ℤ`, with basis blades
encoded as bitmasks below `2 ^ n`.  Every claim settled here is
independent of the substrate's signature conventions.
-/

namespace Screws

/-- A multivector of an `n`-dimensional geometric algebra: one integer
coefficient per basis blade, blades encoded as bitmasks below `2 ^ n`. -/
abbrev MV (n : Nat) : Type := Fin (2 ^ n) → ℤ

/-- Number of set bits among the lowest `w` bits of `a`. -/
def countBits : Nat → Nat → Nat
  | 0, _ => 0
  | w + 1, a => a % 2 + countBits w (a / 2)

/-- Number of index transpositions needed to merge basis blades `a` and `b`
into a canonically ordered blade: pairs `(i, j)` with `i` set in `a`,
`j` set in `b` and `i > j`, summed over `w` shifts. -/
def swapCount : Nat → Nat → Nat → Nat
  | 0, _, _ => 0
  | w + 1, a, b => countBits (w + 1) ((a / 2) &&& b) + swapCount w (a / 2) b

/-- Sign produced when multiplying basis blades `a` and `b`
(Euclidean signature: generators square to `+1`). -/
def bladeSign (w a b : Nat) : ℤ := (-1 : ℤ) ^ swapCount w a b

/-- Generic blade-indexed bilinear product: coefficient of blade `c` collects
every pair of blades `(a, b)` with `a XOR b = c`, weighted by `f a b`. -/
def mulWith {n : Nat} (f : Nat → Nat → ℤ) (x y : MV n) : MV n :=
  fun c => ∑ a : Fin (2 ^ n), ∑ b : Fin (2 ^ n),
    if a.val ^^^ b.val = c.val then f a.val b.val * (x a * y b) else 0

/-- The outer (wedge) product `x ^ y` of the substrate: only pairs of
disjoint blades contribute. -/
def wedge {n : Nat} (x y : MV n) : MV n :=
  mulWith (fun a b => if a &&& b = 0 then bladeSign n a b else 0) x y

/-- The geometric product `x * y` of the substrate. -/
def gmul {n : Nat} (x y : MV n) : MV n :=
  mulWith (fun a b => bladeSign n a b) x y

/-- Grade involution: negates odd-grade components. -/
def gradeInvolution {n : Nat} (x : MV n) : MV n :=
  fun c => (-1 : ℤ) ^ countBits n c.val * x c

/-- Reversion `~x`: sign `(-1) ^ (k * (k - 1) / 2)` on each grade-`k` blade. -/
def reverse {n : Nat} (x : MV n) : MV n :=
  fun c => (-1 : ℤ) ^ (countBits n c.val * (countBits n c.val - 1) / 2) * x c

/-- Grade projection `x(k)`: keeps only the grade-`k` components. -/
def gradeProjection {n : Nat} (x : MV n) (k : Nat) : MV n :=
  fun c => if countBits n c.val = k then x c else 0

/-- The basis blade of bitmask `b`, as a multivector. -/
def blade (n b : Nat) : MV n := fun c => if c.val = b then 1 else 0

/-- The two kinds of error the Python layer raises (both are `TypeError`
at runtime, told apart by their message): the operand-kind check of the
binary operators, and the reference-point check of `ScrewBase.__init__`. -/
inductive PyError : Type where
  | typeMismatch : PyError
  | invalidRefPoint : PyError
deriving DecidableEq

/-- Result of a Python call: a value, or a raised error. -/
inductive PyResult (α : Type) : Type where
  | ok : α → PyResult α
  | error : PyError → PyResult α

instance instDecEqPyResult {α : Type} [DecidableEq α] : DecidableEq (PyResult α) := fun a b =>
  match a, b with
  | PyResult.ok x, PyResult.ok y => decidable_of_iff (x = y) (by simp)
  | PyResult.ok _, PyResult.error _ => isFalse (fun h => PyResult.noConfusion h)
  | PyResult.error _, PyResult.ok _ => isFalse (fun h => PyResult.noConfusion h)
  | PyResult.error e, PyResult.error f => decidable_of_iff (e = f) (by simp)

/-- Sequencing of fallible Python computations: an error propagates. -/
def PyResult.bind {α β : Type} : PyResult α → (α → PyResult β) → PyResult β
  | PyResult.ok a, f => f a
  | PyResult.error e, _ => PyResult.error e

/-- The concrete class of a `ScrewBase` instance (`self.__class__`). -/
inductive ScrewKind : Type where
  | screw : ScrewKind
  | coscrew : ScrewKind
deriving DecidableEq

/-- A constructed `ScrewBase` object of `gscrew/screw.py`: its concrete
class together with the three stored fields `ref_point`, `direction`
and `moment`. -/
structure ScrewBase (n : Nat) : Type where
  kind : ScrewKind
  ref_point : MV n
  direction : MV n
  moment : MV n

instance instDecEqScrewBase {n : Nat} : DecidableEq (ScrewBase n) := fun a b =>
  decidable_of_iff
    (a.kind = b.kind ∧ a.ref_point = b.ref_point ∧ a.direction = b.direction
      ∧ a.moment = b.moment)
    (by cases a; cases b; simp)

/-- `ScrewBase.__init__` (`gscrew/screw.py`, lines 57-79): raises unless
`ref_point(1) == ref_point`, otherwise stores the three fields unchanged.
`k` is the concrete class being instantiated. -/
def ScrewBase.init {n : Nat} (k : ScrewKind) (ref_point direction moment : MV n) :
    PyResult (ScrewBase n) :=
  if gradeProjection ref_point 1 ≠ ref_point then PyResult.error PyError.invalidRefPoint
  else PyResult.ok ⟨k, ref_point, direction, moment⟩

/-- `ScrewBase.change_point` (`gscrew/screw.py`, lines 91-108): rebuilds
through `self.__class__(new_point, direction, moment - ((new_point - ref_point) ^ direction))`,
hence through the validating constructor. -/
def ScrewBase.change_point {n : Nat} (s : ScrewBase n) (new_point : MV n) :
    PyResult (ScrewBase n) :=
  ScrewBase.init s.kind new_point s.direction
    (s.moment - wedge (new_point - s.ref_point) s.direction)

/-- The dynamically typed Python values a binary operator may receive:
a screw/co-screw object, a bare multivector, or a number. -/
inductive PyVal (n : Nat) : Type where
  | obj : ScrewBase n → PyVal n
  | mv : MV n → PyVal n
  | num : ℤ → PyVal n

instance instDecEqPyVal {n : Nat} : DecidableEq (PyVal n) := fun a b =>
  match a, b with
  | PyVal.obj x, PyVal.obj y => decidable_of_iff (x = y) (by simp)
  | PyVal.mv x, PyVal.mv y => decidable_of_iff (x = y) (by simp)
  | PyVal.num x, PyVal.num y => decidable_of_iff (x = y) (by simp)
  | PyVal.obj _, PyVal.mv _ => isFalse (fun h => PyVal.noConfusion h)
  | PyVal.obj _, PyVal.num _ => isFalse (fun h => PyVal.noConfusion h)
  | PyVal.mv _, PyVal.obj _ => isFalse (fun h => PyVal.noConfusion h)
  | PyVal.mv _, PyVal.num _ => isFalse (fun h => PyVal.noConfusion h)
  | PyVal.num _, PyVal.obj _ => isFalse (fun h => PyVal.noConfusion h)
  | PyVal.num _, PyVal.mv _ => isFalse (fun h => PyVal.noConfusion h)

/-- `isinstance(v, Screw)`. -/
def isScrewVal {n : Nat} : PyVal n → Bool
  | PyVal.obj o => match o.kind with
    | ScrewKind.screw => true
    | ScrewKind.coscrew => false
  | _ => false

/-- `isinstance(v, CoScrew)`. -/
def isCoScrewVal {n : Nat} : PyVal n → Bool
  | PyVal.obj o => match o.kind with
    | ScrewKind.screw => false
    | ScrewKind.coscrew => true
  | _ => false

/-- `Screw.__add__` (`gscrew/screw.py`, lines 145-175): requires a Screw
operand, transports it to `self.ref_point` when the reference points
differ, then builds `Screw(self.ref_point, direction sum, moment sum)`. -/
def Screw.add {n : Nat} (s : ScrewBase n) (other : PyVal n) : PyResult (ScrewBase n) :=
  match other with
  | PyVal.obj o =>
    if o.kind = ScrewKind.screw then
      PyResult.bind
        (if s.ref_point ≠ o.ref_point then ScrewBase.change_point o s.ref_point
         else PyResult.ok o)
        (fun o2 => ScrewBase.init ScrewKind.screw s.ref_point
          (s.direction + o2.direction) (s.moment + o2.moment))
    else PyResult.error PyError.typeMismatch
  | _ => PyResult.error PyError.typeMismatch

/-- `Screw.__xor__` (`gscrew/screw.py`, lines 177-206): same operand check
and transport as the addition, then builds
`Screw(ref, (direction ^ other.moment) + (moment.grade_involution() ^ other.direction), moment ^ other.moment)`. -/
def Screw.xor {n : Nat} (s : ScrewBase n) (other : PyVal n) : PyResult (ScrewBase n) :=
  match other with
  | PyVal.obj o =>
    if o.kind = ScrewKind.screw then
      PyResult.bind
        (if s.ref_point ≠ o.ref_point then ScrewBase.change_point o s.ref_point
         else PyResult.ok o)
        (fun o2 => ScrewBase.init ScrewKind.screw s.ref_point
          (wedge s.direction o2.moment + wedge (gradeInvolution s.moment) o2.direction)
          (wedge s.moment o2.moment))
    else PyResult.error PyError.typeMismatch
  | _ => PyResult.error PyError.typeMismatch

/-- `CoScrew.__add__` (`gscrew/screw.py`, lines 229-256): requires a
CoScrew operand; the reference points are never compared and the operand
is never transported; builds
`CoScrew(self.ref_point, direction sum, moment sum)` from the raw fields. -/
def CoScrew.add {n : Nat} (s : ScrewBase n) (other : PyVal n) : PyResult (ScrewBase n) :=
  match other with
  | PyVal.obj o =>
    if o.kind = ScrewKind.coscrew then
      ScrewBase.init ScrewKind.coscrew s.ref_point
        (s.direction + o.direction) (s.moment + o.moment)
    else PyResult.error PyError.typeMismatch
  | _ => PyResult.error PyError.typeMismatch

/-- `comoment` (`gscrew/screw.py`, lines 285-301):
`(-coscrew.direction.grade_involution() * screw.moment.grade_involution() + screw.direction * coscrew.moment)(0)`. -/
def comoment {n : Nat} (coscrew screw : ScrewBase n) : MV n :=
  gradeProjection
    (gmul (-gradeInvolution coscrew.direction) (gradeInvolution screw.moment)
      + gmul screw.direction coscrew.moment) 0

namespace PF

/-- A `Screw` of the point-free variant (`src/screw.py`): no reference
point, only the two stored fields. -/
structure Screw (n : Nat) : Type where
  direction : MV n
  moment : MV n

instance instDecEqPFScrew {n : Nat} : DecidableEq (Screw n) := fun a b =>
  decidable_of_iff (a.direction = b.direction ∧ a.moment = b.moment)
    (by cases a; cases b; simp)

/-- A `CoScrew` of the point-free variant (`src/screw.py`). -/
structure CoScrew (n : Nat) : Type where
  direction : MV n
  moment : MV n

instance instDecEqPFCoScrew {n : Nat} : DecidableEq (CoScrew n) := fun a b =>
  decidable_of_iff (a.direction = b.direction ∧ a.moment = b.moment)
    (by cases a; cases b; simp)

/-- `Screw.__xor__` of the point-free variant (`src/screw.py`, lines 81-105),
restricted to the Screw-operand path.  The Python source reads
`self.direction ^ other.moment + self.moment.grade_involution() ^ other.direction`;
since in Python `+` binds tighter than `^` and `^` associates to the left,
this parses as
`(self.direction ^ (other.moment + self.moment.grade_involution())) ^ other.direction`. -/
def Screw.xor {n : Nat} (s other : Screw n) : Screw n :=
  ⟨wedge (wedge s.direction (other.moment + gradeInvolution s.moment)) other.direction,
   wedge s.moment other.moment⟩

/-- `comoment` of the point-free variant (`src/screw.py`, lines 194-210):
the same multivector expression as the point-aware one, without the final
grade-0 projection. -/
def comoment {n : Nat} (coscrew : CoScrew n) (screw : Screw n) : MV n :=
  gmul (-gradeInvolution coscrew.direction) (gradeInvolution screw.moment)
    + gmul screw.direction coscrew.moment

end PF

namespace Arm

/-- `examples/arm_kinematics.py`, lines 39-40: the loop
`for index in range(1, nb_joints-1)` combines the running total with
`joint_comotors[nb_joints - index - 1]`; this is the list of joint indices
it combines, in loop order. -/
def composed_joint_indices (nb_joints : Nat) : List Nat :=
  (List.range' 1 (nb_joints - 1 - 1)).map (fun index => nb_joints - index - 1)

/-- The fold of `examples/arm_kinematics.py`, lines 37-40, run with list
concatenation as the (opaque) `composition` operator so that the result
records exactly which joints' comotors enter the total: the total is
initialised with `joint_comotors[-1]` (index `nb_joints - 1`) and each
loop step appends the combined joint's index. -/
def fold_trace (nb_joints : Nat) : List Nat :=
  (composed_joint_indices nb_joints).foldl
    (fun total index => total ++ [index]) [nb_joints - 1]

/-- Modelled from the spec (§4.5 fold rule): the joint indices the claim
says must be combined into the running total — every preceding joint in
distal-to-proximal order, ending with the most proximal joint `0`. -/
def spec_fold_indices (nb_joints : Nat) : List Nat :=
  (List.range' 1 (nb_joints - 1)).map (fun index => nb_joints - index - 1)

/-- `examples/arm_kinematics.py`, lines 47-48.  Line 47 evaluates
`total_comotor.change_point(O)` as a bare statement: `change_point` is a
pure function returning a new instance, so its result is discarded and
line 48 reads `total_comotor.moment` of the untransported comotor. -/
def total_translation {n : Nat} (total_comotor : ScrewBase n) : MV n :=
  total_comotor.moment

/-- Modelled from the spec (§4.5 finalize): the total translation the
claim describes — the moment of the total comotor after transport to the
evaluation point `O` via `ChangePoint`. -/
def spec_total_translation {n : Nat} (O : MV n) (total_comotor : ScrewBase n) :
    PyResult (MV n) :=
  PyResult.bind (ScrewBase.change_point total_comotor O)
    (fun t => PyResult.ok t.moment)

/-- `examples/arm_kinematics.py`, lines 50-51:
`~total_rotor * end_effector * total_rotor + 2 * ~total_rotor * total_translation`,
printed as `final_position(1)` (only the grade-1 part kept). -/
def final_position {n : Nat} (total_rotor end_effector translation : MV n) : MV n :=
  gradeProjection
    (gmul (gmul (reverse total_rotor) end_effector) total_rotor
      + gmul ((2 : ℤ) • reverse total_rotor) translation) 1

end Arm

/-! ## Helper lemmas -/

theorem mulWith_zero_left {n : Nat} (f : Nat → Nat → ℤ) (y : MV n) :
    mulWith f (0 : MV n) y = 0 := by
  funext c
  simp [mulWith]

theorem mulWith_add_left {n : Nat} (f : Nat → Nat → ℤ) (x1 x2 y : MV n) :
    mulWith f (x1 + x2) y = mulWith f x1 y + mulWith f x2 y := by
  funext c
  simp only [mulWith, Pi.add_apply]
  rw [← Finset.sum_add_distrib]
  refine Finset.sum_congr rfl fun a _ => ?_
  rw [← Finset.sum_add_distrib]
  refine Finset.sum_congr rfl fun b _ => ?_
  by_cases h : a.val ^^^ b.val = c.val
  · simp only [h, if_pos]
    ring
  · simp [h]

theorem wedge_zero_left {n : Nat} (y : MV n) : wedge (0 : MV n) y = 0 :=
  mulWith_zero_left _ y

theorem wedge_add_left {n : Nat} (x1 x2 y : MV n) :
    wedge (x1 + x2) y = wedge x1 y + wedge x2 y :=
  mulWith_add_left _ x1 x2 y

theorem wedge_sub_cancel {n : Nat} (P Q d : MV n) :
    wedge (Q - P) d + wedge (P - Q) d = 0 := by
  rw [← wedge_add_left]
  have h : (Q - P) + (P - Q) = (0 : MV n) := by abel
  rw [h, wedge_zero_left]

/-- What `change_point` evaluates to when the new point passes the
constructor's validation. -/
theorem change_point_ok {n : Nat} (s : ScrewBase n) (Q : MV n)
    (hQ : gradeProjection Q 1 = Q) :
    ScrewBase.change_point s Q
      = PyResult.ok ⟨s.kind, Q, s.direction,
          s.moment - wedge (Q - s.ref_point) s.direction⟩ := by
  simp [ScrewBase.change_point, ScrewBase.init, hQ]

/-! ## Claim theorems -/

/-- Claim C1: for every (co)screw `s` with reference point `P`, direction
`D` and moment `M`, and every point `Q` (a purely grade-1 multivector),
`s.change_point(Q)` returns a new instance of the same concrete kind
(`s.kind`), with reference point `Q`, direction `D` unchanged, and moment
`M - ((Q - P) ^ D)`; `change_point` is a pure function and leaves `s`
untouched. -/
theorem change_point_spec {n : Nat} (s : ScrewBase n) (Q : MV n)
    (hQ : gradeProjection Q 1 = Q) :
    ScrewBase.change_point s Q
      = PyResult.ok ⟨s.kind, Q, s.direction,
          s.moment - wedge (Q - s.ref_point) s.direction⟩ :=
  change_point_ok s Q hQ

/-- Witness for C1: a concrete screw transported to the point `e1`. -/
theorem change_point_spec_witness :
    gradeProjection (blade 1 1) 1 = blade 1 1
      ∧ ScrewBase.change_point
            (⟨ScrewKind.screw, 0, blade 1 0, blade 1 1⟩ : ScrewBase 1) (blade 1 1)
          = PyResult.ok ⟨ScrewKind.screw, blade 1 1, blade 1 0,
              blade 1 1 - wedge (blade 1 1 - 0) (blade 1 0)⟩ :=
  ⟨by decide, change_point_spec _ _ (by decide)⟩

/-- Claim C5: transporting a screw to its own reference point is the
identity, and transporting to a point `Q` and back is the identity
(round trip), where the points are purely grade 1. -/
theorem change_point_identity_roundtrip {n : Nat} (s : ScrewBase n) (Q : MV n)
    (hP : gradeProjection s.ref_point 1 = s.ref_point)
    (hQ : gradeProjection Q 1 = Q) :
    ScrewBase.change_point s s.ref_point = PyResult.ok s
      ∧ PyResult.bind (ScrewBase.change_point s Q)
          (fun t => ScrewBase.change_point t s.ref_point) = PyResult.ok s := by
  constructor
  · rw [change_point_ok s s.ref_point hP, sub_self, wedge_zero_left, sub_zero]
  · rw [change_point_ok s Q hQ]
    simp only [PyResult.bind]
    rw [change_point_ok _ s.ref_point hP]
    have hm : s.moment - wedge (Q - s.ref_point) s.direction
        - wedge (s.ref_point - Q) s.direction = s.moment := by
      rw [sub_sub, wedge_sub_cancel, sub_zero]
    simp only [hm]

/-- Witness for C5: a concrete screw at the origin, transported to `e1`
and back. -/
theorem change_point_identity_roundtrip_witness :
    gradeProjection (0 : MV 1) 1 = 0
      ∧ gradeProjection (blade 1 1) 1 = blade 1 1
      ∧ (ScrewBase.change_point
            (⟨ScrewKind.screw, 0, blade 1 0, blade 1 1⟩ : ScrewBase 1) 0
          = PyResult.ok ⟨ScrewKind.screw, 0, blade 1 0, blade 1 1⟩
        ∧ PyResult.bind
            (ScrewBase.change_point
              (⟨ScrewKind.screw, 0, blade 1 0, blade 1 1⟩ : ScrewBase 1) (blade 1 1))
            (fun t => ScrewBase.change_point t 0)
          = PyResult.ok ⟨ScrewKind.screw, 0, blade 1 0, blade 1 1⟩) :=
  ⟨by decide, by decide,
    change_point_identity_roundtrip
      (⟨ScrewKind.screw, 0, blade 1 0, blade 1 1⟩ : ScrewBase 1) (blade 1 1)
      (by decide) (by decide)⟩

/-- Claim C8: constructing a Screw or CoScrew raises the
invalid-reference-point error if and only if the supplied reference point
is not purely grade 1; for a genuine grade-1 point, construction succeeds
with the three fields stored unchanged. -/
theorem screwbase_init_spec {n : Nat} (k : ScrewKind) (ref d m : MV n) :
    (ScrewBase.init k ref d m = PyResult.error PyError.invalidRefPoint
        ↔ gradeProjection ref 1 ≠ ref)
      ∧ (gradeProjection ref 1 = ref →
          ScrewBase.init k ref d m = PyResult.ok ⟨k, ref, d, m⟩) := by
  refine ⟨⟨fun h hcontra => ?_, fun h => ?_⟩, fun h => ?_⟩
  · simp [ScrewBase.init, hcontra] at h
  · simp [ScrewBase.init, h]
  · simp [ScrewBase.init, h]

/-- Witness for C8: construction succeeds at the grade-1 point `e1` and
fails at the grade-2 blade `e12`. -/
theorem screwbase_init_spec_witness :
    (gradeProjection (blade 1 1) 1 = blade 1 1
        ∧ ScrewBase.init ScrewKind.coscrew (blade 1 1) (blade 1 0) 0
            = PyResult.ok ⟨ScrewKind.coscrew, blade 1 1, blade 1 0, 0⟩)
      ∧ (gradeProjection (blade 2 3) 1 ≠ blade 2 3
        ∧ ScrewBase.init ScrewKind.screw (blade 2 3) 0 0
            = PyResult.error PyError.invalidRefPoint) :=
  ⟨⟨by decide,
    (screwbase_init_spec ScrewKind.coscrew (blade 1 1) (blade 1 0) 0).2 (by decide)⟩,
   ⟨by decide,
    (screwbase_init_spec ScrewKind.screw (blade 2 3) 0 0).1.mpr (by decide)⟩⟩

/-- Claim C10: `change_point` rebuilds its result through the validating
constructor, so it raises the same invalid-reference-point error as
construction exactly when the new point is not purely grade 1, and
succeeds for every purely grade-1 point. -/
theorem change_point_validates {n : Nat} (s : ScrewBase n) (Q : MV n) :
    (ScrewBase.change_point s Q = PyResult.error PyError.invalidRefPoint
        ↔ gradeProjection Q 1 ≠ Q)
      ∧ (gradeProjection Q 1 = Q →
          ScrewBase.change_point s Q
            = PyResult.ok ⟨s.kind, Q, s.direction,
                s.moment - wedge (Q - s.ref_point) s.direction⟩) := by
  refine ⟨⟨fun h hq => ?_, fun h => ?_⟩, change_point_ok s Q⟩
  · rw [change_point_ok s Q hq] at h
    exact PyResult.noConfusion h
  · simp [ScrewBase.change_point, ScrewBase.init, h]

/-- Witness for C10: transporting to the grade-2 blade `e12` raises the
invalid-reference-point error. -/
theorem change_point_validates_witness :
    gradeProjection (blade 2 3) 1 ≠ blade 2 3
      ∧ ScrewBase.change_point
            (⟨ScrewKind.coscrew, 0, blade 2 1, 0⟩ : ScrewBase 2) (blade 2 3)
          = PyResult.error PyError.invalidRefPoint :=
  ⟨by decide,
   (change_point_validates (⟨ScrewKind.coscrew, 0, blade 2 1, 0⟩ : ScrewBase 2)
      (blade 2 3)).1.mpr (by decide)⟩

/-- Claim C6: screw addition raises the type-mismatch error exactly when
the right operand is not a Screw; for a Screw operand the right operand is
transported to the left operand's reference point when the points differ
(the left operand's point wins) and the result is the screw at the left
point with componentwise sums of the (possibly transported) fields. -/
theorem screw_add_spec {n : Nat} (s : ScrewBase n) (other : PyVal n)
    (hs : gradeProjection s.ref_point 1 = s.ref_point) :
    (Screw.add s other = PyResult.error PyError.typeMismatch
        ↔ isScrewVal other = false)
      ∧ ∀ o : ScrewBase n, other = PyVal.obj o → o.kind = ScrewKind.screw →
          ∃ t : ScrewBase n,
            (if o.ref_point = s.ref_point then PyResult.ok o
             else ScrewBase.change_point o s.ref_point) = PyResult.ok t
              ∧ Screw.add s other
                  = PyResult.ok ⟨ScrewKind.screw, s.ref_point,
                      s.direction + t.direction, s.moment + t.moment⟩ := by
  cases other with
  | mv x =>
    exact ⟨by simp [Screw.add, isScrewVal], fun o ho _ => PyVal.noConfusion ho⟩
  | num x =>
    exact ⟨by simp [Screw.add, isScrewVal], fun o ho _ => PyVal.noConfusion ho⟩
  | obj o =>
    by_cases hk : o.kind = ScrewKind.screw
    · have hcomp : ∃ t : ScrewBase n,
          (if o.ref_point = s.ref_point then PyResult.ok o
           else ScrewBase.change_point o s.ref_point) = PyResult.ok t
            ∧ Screw.add s (PyVal.obj o)
                = PyResult.ok ⟨ScrewKind.screw, s.ref_point,
                    s.direction + t.direction, s.moment + t.moment⟩ := by
        by_cases hr : s.ref_point = o.ref_point
        · refine ⟨o, if_pos hr.symm, ?_⟩
          simp only [Screw.add, if_pos hk, if_neg (not_not_intro hr), PyResult.bind]
          simp [ScrewBase.init, hs]
        · refine ⟨⟨o.kind, s.ref_point, o.direction,
              o.moment - wedge (s.ref_point - o.ref_point) o.direction⟩, ?_, ?_⟩
          · rw [if_neg (fun h => hr h.symm), change_point_ok o s.ref_point hs]
          · simp only [Screw.add, if_pos hk, if_pos hr,
              change_point_ok o s.ref_point hs, PyResult.bind]
            simp [ScrewBase.init, hs]
      obtain ⟨t, ht1, ht2⟩ := hcomp
      refine ⟨?_, ?_⟩
      · rw [ht2]
        constructor
        · intro h
          exact PyResult.noConfusion h
        · intro h
          rw [isScrewVal, hk] at h
          exact Bool.noConfusion h
      · intro o2 ho2 _
        have h : o = o2 := by injection ho2
        subst h
        exact ⟨t, ht1, ht2⟩
    · have hko : o.kind = ScrewKind.coscrew := by
        cases hc : o.kind with
        | screw => exact absurd hc hk
        | coscrew => rfl
      have he : Screw.add s (PyVal.obj o) = PyResult.error PyError.typeMismatch := by
        simp only [Screw.add, if_neg hk]
      refine ⟨?_, ?_⟩
      · rw [he, isScrewVal, hko]
        simp
      · intro o2 ho2 hk2
        have h : o = o2 := by injection ho2
        subst h
        exact absurd hk2 hk

/-- Witness for C6: a screw at the origin plus a screw at `e1`; the right
operand is transported to the origin and the sum is taken there. -/
theorem screw_add_spec_witness :
    gradeProjection (0 : MV 1) 1 = (0 : MV 1)
      ∧ ∃ t : ScrewBase 1,
          (if (blade 1 1 : MV 1) = (0 : MV 1)
            then PyResult.ok (⟨ScrewKind.screw, blade 1 1, blade 1 0, 0⟩ : ScrewBase 1)
            else ScrewBase.change_point
              (⟨ScrewKind.screw, blade 1 1, blade 1 0, 0⟩ : ScrewBase 1) 0)
            = PyResult.ok t
          ∧ Screw.add (⟨ScrewKind.screw, 0, blade 1 1, blade 1 0⟩ : ScrewBase 1)
                (PyVal.obj ⟨ScrewKind.screw, blade 1 1, blade 1 0, 0⟩)
              = PyResult.ok ⟨ScrewKind.screw, 0,
                  blade 1 1 + t.direction, blade 1 0 + t.moment⟩ :=
  ⟨by decide,
   (screw_add_spec (⟨ScrewKind.screw, 0, blade 1 1, blade 1 0⟩ : ScrewBase 1)
      (PyVal.obj ⟨ScrewKind.screw, blade 1 1, blade 1 0, 0⟩) (by decide)).2
        ⟨ScrewKind.screw, blade 1 1, blade 1 0, 0⟩ rfl rfl⟩

/-- Counterexample to C7 as stated: two co-screws anchored at different
(valid) reference points add without raising anything — the claimed
type-mismatch failure on mismatched points does not happen. -/
theorem coscrew_add_no_point_check :
    (⟨ScrewKind.coscrew, 0, blade 1 1, 0⟩ : ScrewBase 1).ref_point
        ≠ (⟨ScrewKind.coscrew, blade 1 1, 0, blade 1 1⟩ : ScrewBase 1).ref_point
      ∧ CoScrew.add (⟨ScrewKind.coscrew, 0, blade 1 1, 0⟩ : ScrewBase 1)
            (PyVal.obj ⟨ScrewKind.coscrew, blade 1 1, 0, blade 1 1⟩)
          ≠ PyResult.error PyError.typeMismatch := by
  decide

/-- Claim C7 (amended): co-screw addition raises the type-mismatch error
exactly when the right operand is not a CoScrew; it never compares the
reference points and never applies `change_point` (no implicit transport),
and for every CoScrew operand — shared reference point or not — the
result is the co-screw at the left operand's point with componentwise
sums of the raw fields.  The shared-point requirement is an unchecked
precondition, not an enforced failure. -/
theorem coscrew_add_spec {n : Nat} (s : ScrewBase n) (other : PyVal n)
    (hs : gradeProjection s.ref_point 1 = s.ref_point) :
    (CoScrew.add s other = PyResult.error PyError.typeMismatch
        ↔ isCoScrewVal other = false)
      ∧ ∀ o : ScrewBase n, other = PyVal.obj o → o.kind = ScrewKind.coscrew →
          CoScrew.add s other
            = PyResult.ok ⟨ScrewKind.coscrew, s.ref_point,
                s.direction + o.direction, s.moment + o.moment⟩ := by
  cases other with
  | mv x =>
    exact ⟨by simp [CoScrew.add, isCoScrewVal], fun o ho _ => PyVal.noConfusion ho⟩
  | num x =>
    exact ⟨by simp [CoScrew.add, isCoScrewVal], fun o ho _ => PyVal.noConfusion ho⟩
  | obj o =>
    by_cases hk : o.kind = ScrewKind.coscrew
    · have hok : CoScrew.add s (PyVal.obj o)
          = PyResult.ok ⟨ScrewKind.coscrew, s.ref_point,
              s.direction + o.direction, s.moment + o.moment⟩ := by
        simp only [CoScrew.add, if_pos hk]
        simp [ScrewBase.init, hs]
      refine ⟨?_, ?_⟩
      · rw [hok, isCoScrewVal, hk]
        constructor
        · intro h
          exact PyResult.noConfusion h
        · intro h
          exact Bool.noConfusion h
      · intro o2 ho2 _
        have h : o = o2 := by injection ho2
        subst h
        exact hok
    · have hko : o.kind = ScrewKind.screw := by
        cases hc : o.kind with
        | screw => rfl
        | coscrew => exact absurd hc hk
      have he : CoScrew.add s (PyVal.obj o) = PyResult.error PyError.typeMismatch := by
        simp only [CoScrew.add, if_neg hk]
      refine ⟨?_, ?_⟩
      · rw [he, isCoScrewVal, hko]
        simp
      · intro o2 ho2 hk2
        have h : o = o2 := by injection ho2
        subst h
        exact absurd hk2 hk

/-- Witness for C7 (amended): the co-screw sum at mismatched points is
taken from the raw fields at the left operand's point. -/
theorem coscrew_add_spec_witness :
    gradeProjection (0 : MV 1) 1 = (0 : MV 1)
      ∧ CoScrew.add (⟨ScrewKind.coscrew, 0, blade 1 1, 0⟩ : ScrewBase 1)
            (PyVal.obj ⟨ScrewKind.coscrew, blade 1 1, 0, blade 1 1⟩)
          = PyResult.ok ⟨ScrewKind.coscrew, 0, blade 1 1 + 0, 0 + blade 1 1⟩ :=
  ⟨by decide,
   (coscrew_add_spec (⟨ScrewKind.coscrew, 0, blade 1 1, 0⟩ : ScrewBase 1)
      (PyVal.obj ⟨ScrewKind.coscrew, blade 1 1, 0, blade 1 1⟩) (by decide)).2
        ⟨ScrewKind.coscrew, blade 1 1, 0, blade 1 1⟩ rfl rfl⟩

/-- Claim C2, settled against the code: at a shared reference point the
point-aware wedge (`gscrew/screw.py`) produces exactly the explicitly
parenthesized direction `(d1 ^ m2) + (grade_involution(m1) ^ d2)`, while
the point-free variant (`src/screw.py`) parses — by Python operator
precedence — as `(d1 ^ (m2 + grade_involution(m1))) ^ d2` and differs:
at `d1 = e1, m1 = 0` and `d2 = e1, m2 = e2` (dimension 2) the point-free
code returns direction `0` where the specified form gives `e1 ^ e2 ≠ 0`. -/
theorem pf_xor_precedence_check :
    Screw.xor (⟨ScrewKind.screw, 0, blade 2 1, 0⟩ : ScrewBase 2)
        (PyVal.obj ⟨ScrewKind.screw, 0, blade 2 1, blade 2 2⟩)
      = PyResult.ok ⟨ScrewKind.screw, 0,
          wedge (blade 2 1) (blade 2 2) + wedge (gradeInvolution (0 : MV 2)) (blade 2 1),
          wedge (0 : MV 2) (blade 2 2)⟩
    ∧ (PF.Screw.xor ⟨blade 2 1, 0⟩ ⟨blade 2 1, blade 2 2⟩).direction = 0
    ∧ wedge (blade 2 1) (blade 2 2)
        + wedge (gradeInvolution (0 : MV 2)) (blade 2 1) ≠ (0 : MV 2) := by
  decide

/-- Claim C3, settled against the code (`examples/arm_kinematics.py`,
lines 47-48): the script evaluates `total_comotor.change_point(O)` as a
bare statement and discards the returned new instance, so the translation
it then reads is the untransported moment.  At a concrete comotor
(reference point `e1`, rotor `1`, moment `e2`, origin `0`) the transported
moment the spec asks for is `e1 + e2 ≠ e2`, and the final end-effector
position computed from the two translations differs as well. -/
theorem arm_translation_check :
    Arm.total_translation
        (⟨ScrewKind.coscrew, blade 2 1, blade 2 0, blade 2 2⟩ : ScrewBase 2)
      = blade 2 2
    ∧ Arm.spec_total_translation 0
          (⟨ScrewKind.coscrew, blade 2 1, blade 2 0, blade 2 2⟩ : ScrewBase 2)
        = PyResult.ok (blade 2 1 + blade 2 2)
    ∧ (blade 2 1 + blade 2 2 : MV 2) ≠ blade 2 2
    ∧ Arm.final_position (blade 2 0) (blade 2 1) (blade 2 2)
        ≠ Arm.final_position (blade 2 0) (blade 2 1) (blade 2 1 + blade 2 2) := by
  decide

/-- Claim C4, settled against the code (`examples/arm_kinematics.py`,
lines 37-40): with the six joints of the example the fold initialises the
total with joint 5 and combines joints 4, 3, 2, 1 — the most proximal
joint 0 is never combined, while the spec's fold rule requires every
preceding joint down to joint 0. -/
theorem arm_fold_skips_base_joint :
    Arm.composed_joint_indices 6 = [4, 3, 2, 1]
      ∧ Arm.fold_trace 6 = [5, 4, 3, 2, 1]
      ∧ 0 ∉ Arm.fold_trace 6
      ∧ Arm.spec_fold_indices 6 = [4, 3, 2, 1, 0] := by
  decide

/-- Claim C9: the comoment computes
`-grade_involution(cs.direction) * grade_involution(s.moment) + s.direction * cs.moment`,
grade-0 projected in the point-aware variant and left raw in the
point-free variant, so the point-aware comoment is the grade-0 projection
of the point-free comoment at the same direction and moment multivectors. -/
theorem comoment_spec {n : Nat} (coscrew screw : ScrewBase n) :
    comoment coscrew screw
        = gradeProjection
            (PF.comoment ⟨coscrew.direction, coscrew.moment⟩
              ⟨screw.direction, screw.moment⟩) 0
      ∧ comoment coscrew screw
          = gradeProjection
              (gmul (-gradeInvolution coscrew.direction) (gradeInvolution screw.moment)
                + gmul screw.direction coscrew.moment) 0 :=
  ⟨rfl, rfl⟩

end Screws

